import Mathlib

/-!
Verification development for the obsbot-controls-qt-linux frame pipeline.

The definitions below are a shallow embedding of the two core units:
  - src/gui/VirtualCameraStreamer.cpp (RGB to YUYV conversion, device session)
  - src/gui/FilterPreviewWidget.cpp   (flag-driven render/emit machinery,
    aspect-fit scale, fragment shader math)

Modelling conventions:
  - C++ int arithmetic is modelled with unbounded Int (all intermediate
    values in the conversion fit comfortably in 32-bit, no overflow occurs).
  - The arithmetic right shift `>> 8` on a signed int is floor division by
    256, written Int.fdiv below.
  - The converter is imperative (raw pointer stores into a resized byte
    buffer), so it is embedded at the store-trace level: the model returns
    the buffer size chosen by resize together with the ordered list of
    (byte index, byte value) stores the loops perform.  A store whose index
    is at least the buffer size is an out-of-bounds write in the C++.
  - GLSL / Qt float quantities (strength, aspect ratios, shader colors) are
    modelled exactly over the rationals.
  - OS interaction (open / ioctl / write results) is passed in explicitly as
    parameters, so the device-session control flow is a pure function of the
    state and of the modelled syscall outcomes.
-/

/-- One 8-bit RGB pixel (channel values are bytes, 0..255). -/
structure Rgb where
  r : Nat
  g : Nat
  b : Nat
deriving DecidableEq, Repr

/-- Embeds clampToByte from VirtualCameraStreamer.cpp: clamp an int into
the byte range 0..255. -/
def clampToByte (value : Int) : Nat :=
  if value < 0 then 0
  else if value > 255 then 255
  else value.toNat

/-- Embeds the YuvComponents struct from VirtualCameraStreamer.cpp. -/
structure YuvComponents where
  y : Nat
  u : Nat
  v : Nat
deriving DecidableEq, Repr

/-- Embeds rgbToYuv from VirtualCameraStreamer.cpp: BT.601 conversion with
integer math; `>> 8` on the (possibly negative) signed int is arithmetic
shift, i.e. floor division by 256. -/
def rgbToYuv (r g b : Nat) : YuvComponents :=
  let y := Int.fdiv (66 * (r : Int) + 129 * (g : Int) + 25 * (b : Int) + 128) 256 + 16
  let u := Int.fdiv (-38 * (r : Int) - 74 * (g : Int) + 112 * (b : Int) + 128) 256 + 128
  let v := Int.fdiv (112 * (r : Int) - 94 * (g : Int) - 18 * (b : Int) + 128) 256 + 128
  { y := clampToByte y, u := clampToByte u, v := clampToByte v }

/-- Embeds the chroma averaging of a horizontal pixel pair inside
convertRgbToYuyv: `clampToByte((int(yuv0.u) + int(yuv1.u)) / 2)`
(C++ int division; both operands are bytes, so this is plain integer
division by two). -/
def pairChroma (c0 c1 : Nat) : Nat :=
  clampToByte (((c0 : Int) + (c1 : Int)) / 2)

/-- Embeds the byte values produced by one iteration space of the scanline
loop of convertRgbToYuyv, in store order: pixels are consumed pairwise (the
loop `for (; x + 1 < width; x += 2)`), each pair packed as Y0, U, Y1, V
with shared chroma the integer average of the two independently computed
chroma values; a lone trailing pixel (the `if (x < width)` block, odd
width) is packed as Y, U, Y, V from its own components. -/
def packRow : List Rgb → List Nat
  | [] => []
  | [p0] =>
    let yuv0 := rgbToYuv p0.r p0.g p0.b
    [yuv0.y, yuv0.u, yuv0.y, yuv0.v]
  | p0 :: p1 :: rest =>
    let yuv0 := rgbToYuv p0.r p0.g p0.b
    let yuv1 := rgbToYuv p1.r p1.g p1.b
    yuv0.y :: pairChroma yuv0.u yuv1.u :: yuv1.y :: pairChroma yuv0.v yuv1.v :: packRow rest

/-- Embeds the stores of one scanline of convertRgbToYuyv as (index, value)
pairs into the destination buffer: `base` is the row base offset
(`rowPtr = dst + y*width*2`), `x` the current column; the pair iteration
stores at offsets x*2 .. x*2+3 and advances x by two, the trailing lone
pixel also stores at offsets x*2 .. x*2+3. -/
def packRowWrites (base : Nat) : Nat → List Rgb → List (Nat × Nat)
  | _, [] => []
  | x, [p0] =>
    let yuv0 := rgbToYuv p0.r p0.g p0.b
    [(base + x * 2, yuv0.y), (base + x * 2 + 1, yuv0.u),
     (base + x * 2 + 2, yuv0.y), (base + x * 2 + 3, yuv0.v)]
  | x, p0 :: p1 :: rest =>
    let yuv0 := rgbToYuv p0.r p0.g p0.b
    let yuv1 := rgbToYuv p1.r p1.g p1.b
    (base + x * 2, yuv0.y) :: (base + x * 2 + 1, pairChroma yuv0.u yuv1.u) ::
    (base + x * 2 + 2, yuv1.y) :: (base + x * 2 + 3, pairChroma yuv0.v yuv1.v) ::
    packRowWrites base (x + 2) rest

/-- An RGB888 QImage as consumed by convertRgbToYuyv: declared dimensions
plus the scanlines (constScanLine). A well-formed image has every scanline
of length `width` (hypothesis where needed). -/
structure RgbImage where
  width : Int
  height : Int
  scanLine : Nat → List Rgb

/-- Embeds convertRgbToYuyv from VirtualCameraStreamer.cpp at the
store-trace level. Returns none exactly on the early
`width <= 0 || height <= 0` failure return (the C++ function returns false
before touching the output buffer); otherwise returns the buffer size
chosen by `outBuffer.resize(width * height * 2)` together with the ordered
(index, value) stores performed by the row loop. -/
def convertRgbToYuyvWrites (image : RgbImage) : Option (Nat × List (Nat × Nat)) :=
  if image.width ≤ 0 ∨ image.height ≤ 0 then none
  else some ((image.width * image.height * 2).toNat,
    (List.range image.height.toNat).flatMap fun y =>
      packRowWrites (y * image.width.toNat * 2) 0 (image.scanLine y))

/-- Modelled from the spec: the per-pixel Y formula as the spec states it,
Y = clampByte(((66R + 129G + 25B + 128) >> 8) + 16). -/
def specLumaY (r g b : Nat) : Nat :=
  clampToByte (Int.fdiv (66 * (r : Int) + 129 * (g : Int) + 25 * (b : Int) + 128) 256 + 16)

/-- Modelled from the spec: U = clampByte(((-38R - 74G + 112B + 128) >> 8) + 128). -/
def specChromaU (r g b : Nat) : Nat :=
  clampToByte (Int.fdiv (-38 * (r : Int) - 74 * (g : Int) + 112 * (b : Int) + 128) 256 + 128)

/-- Modelled from the spec: V = clampByte(((112R - 94G - 18B + 128) >> 8) + 128). -/
def specChromaV (r g b : Nat) : Nat :=
  clampToByte (Int.fdiv (112 * (r : Int) - 94 * (g : Int) - 18 * (b : Int) + 128) 256 + 128)

/-- Modelled from the spec: the rejected single-step chroma policy that
averages the two raw (pre-shift, pre-round) U sums before rounding, used
only to show the source's two-step rounding differs from it. -/
def singleStepU (p0 p1 : Rgb) : Nat :=
  clampToByte (Int.fdiv ((-38 * (p0.r : Int) - 74 * (p0.g : Int) + 112 * (p0.b : Int) + 128) +
    (-38 * (p1.r : Int) - 74 * (p1.g : Int) + 112 * (p1.b : Int) + 128)) 512 + 128)

/-- Solid red 4 by 2 test frame from the spec's worked example. -/
def redImage4x2 : RgbImage :=
  { width := 4, height := 2, scanLine := fun _ => List.replicate 4 { r := 255, g := 0, b := 0 } }

/-- Solid red 1 by 1 test frame (smallest odd-width image). -/
def redImage1x1 : RgbImage :=
  { width := 1, height := 1, scanLine := fun _ => [{ r := 255, g := 0, b := 0 }] }

/-- Three-pixel single-row test frame (odd width 3). -/
def rgbImage3x1 : RgbImage :=
  { width := 3, height := 1,
    scanLine := fun _ => [{ r := 255, g := 0, b := 0 }, { r := 0, g := 255, b := 0 },
      { r := 0, g := 0, b := 255 }] }

/-- A decoded video frame image (QImage) as seen by the preview widget;
only its dimensions drive the control flow modelled here. -/
structure QImg where
  width : Int
  height : Int
deriving DecidableEq, Repr

/-- Embeds the null/empty test on the modelled image (QImage::isNull,
QSize::isEmpty): some dimension is non-positive. -/
def QImg.isNull (image : QImg) : Bool :=
  image.width ≤ 0 || image.height ≤ 0

/-- Embeds the FilterType enum of FilterPreviewWidget.h. -/
inductive FilterType
  | none
  | grayscale
  | sepia
  | invert
  | warm
  | cool
deriving DecidableEq, Repr

/-- Embeds static_cast<int>(m_filterType), the value given to the u_filter
uniform. -/
def FilterType.toInt : FilterType → Int
  | .none => 0
  | .grayscale => 1
  | .sepia => 2
  | .invert => 3
  | .warm => 4
  | .cool => 5

/-- Embeds the mutable state of FilterPreviewWidget that drives the
modelled control flow.  GL resources are tracked by presence (and size for
texture and framebuffer); their creation is modelled as succeeding, the
GL-failure degradation paths being outside the scope of the claims. -/
structure PreviewState where
  currentImage : Option QImg
  textureDirty : Bool
  emitPending : Bool
  filterType : FilterType
  filterStrength : ℚ
  hasProgram : Bool
  geometryInitialized : Bool
  texture : Option (Int × Int)
  framebuffer : Option (Int × Int)
deriving DecidableEq, Repr

/-- Embeds the FilterPreviewWidget constructor: flags clear, filter None,
strength 1.0, no GL resources yet. -/
def initPreviewState : PreviewState :=
  { currentImage := Option.none, textureDirty := false, emitPending := false,
    filterType := FilterType.none, filterStrength := 1,
    hasProgram := false, geometryInitialized := false,
    texture := Option.none, framebuffer := Option.none }

/-- Embeds FilterPreviewWidget::setFilter: no-op when unchanged. -/
def setFilter (t : FilterType) (s : PreviewState) : PreviewState :=
  if t = s.filterType then s else { s with filterType := t }

/-- Embeds Qt qFuzzyCompare on floats, over the rationals:
|p1 - p2| is at most 0.00001 times the smaller magnitude. -/
def qFuzzyCompare (p1 p2 : ℚ) : Bool :=
  |p1 - p2| ≤ 1 / 100000 * min |p1| |p2|

/-- Embeds FilterPreviewWidget::setFilterStrength: qBound(0.0f, strength,
1.0f) clamps at assignment time; a value fuzzy-equal to the stored one is
ignored (early return before assignment). -/
def setFilterStrength (strength : ℚ) (s : PreviewState) : PreviewState :=
  let clamped := max 0 (min 1 strength)
  if qFuzzyCompare clamped s.filterStrength then s
  else { s with filterStrength := clamped }

/-- Embeds FilterPreviewWidget::updateVideoFrame on a frame that decodes to
an image: an invalid frame or null image returns early changing nothing;
otherwise the image is stored and both edge-triggered flags are set (the
RGBA8888 normalization does not affect the control flow modelled here). -/
def updateVideoFrame (image : QImg) (s : PreviewState) : PreviewState :=
  if image.isNull then s
  else { s with currentImage := some image, textureDirty := true, emitPending := true }

/-- Embeds FilterPreviewWidget::ensureProgram with compile/link modelled as
succeeding: the program exists afterwards and is built at most once. -/
def ensureProgram (s : PreviewState) : PreviewState :=
  if s.hasProgram then s else { s with hasProgram := true }

/-- Embeds FilterPreviewWidget::ensureGeometry: the static quad is created
once per surface lifetime. -/
def ensureGeometry (s : PreviewState) : PreviewState :=
  if s.geometryInitialized then s else { s with geometryInitialized := true }

/-- Embeds FilterPreviewWidget::uploadTextureIfNeeded: a clean flag or a
null image returns early; otherwise the texture ends up sized to the
current image and the dirty flag is cleared. -/
def uploadTextureIfNeeded (s : PreviewState) : PreviewState :=
  match s.currentImage with
  | Option.none => s
  | some image =>
    if s.textureDirty then
      { s with texture := some (image.width, image.height), textureDirty := false }
    else s

/-- Embeds FilterPreviewWidget::ensureFramebuffer with allocation modelled
as succeeding: an empty size releases the target, a matching size is a
no-op, a different size reallocates. -/
def ensureFramebuffer (size : Int × Int) (s : PreviewState) : PreviewState :=
  if size.1 ≤ 0 || size.2 ≤ 0 then { s with framebuffer := Option.none }
  else if s.framebuffer = some size then s
  else { s with framebuffer := some size }

/-- Embeds FilterPreviewWidget::paintGL; the returned Nat is the number of
processedFrameReady emissions in this pass (0 or 1).  A null current image
returns early; the offscreen render, readback and emission happen exactly
when emitPending is set and the framebuffer exists, and clear emitPending;
the visible-surface render pass afterwards does not touch the flags. -/
def paintGL (s : PreviewState) : PreviewState × Nat :=
  match s.currentImage with
  | Option.none => (s, 0)
  | some image =>
    let s1 := uploadTextureIfNeeded (ensureGeometry (ensureProgram s))
    if s1.hasProgram && s1.texture.isSome then
      let s2 := ensureFramebuffer (image.width, image.height) s1
      if s2.emitPending && s2.framebuffer.isSome then
        ({ s2 with emitPending := false }, 1)
      else (s2, 0)
    else (s1, 0)

/-- An externally triggered event on the preview widget: arrival of a new
input frame (updateVideoFrame) or a repaint of the surface (paintGL). -/
inductive PreviewEvent
  | frame (image : QImg)
  | paint
deriving DecidableEq, Repr

/-- One event step of the widget, returning the new state and the number of
processedFrameReady emissions it produced. -/
def stepPreview (s : PreviewState) : PreviewEvent → PreviewState × Nat
  | .frame image => (updateVideoFrame image s, 0)
  | .paint => paintGL s

/-- Runs a sequence of events, accumulating the emission count. -/
def runPreview : PreviewState → List PreviewEvent → PreviewState × Nat
  | s, [] => (s, 0)
  | s, e :: es =>
    let r := stepPreview s e
    let r2 := runPreview r.1 es
    (r2.1, r.2 + r2.2)

/-- The event trace of the emission-cadence scenario: each arriving frame
is followed by one processing repaint plus any number of extra repaints
before the next frame arrives. -/
def cadenceTrace (segs : List (QImg × Nat)) : List PreviewEvent :=
  segs.flatMap fun seg => PreviewEvent.frame seg.1 :: List.replicate (seg.2 + 1) PreviewEvent.paint

/-- The widget state reached after a frame has been fully processed: flags
clear, GL resources sized to the frame. -/
def steadyState (image : QImg) (t : FilterType) (q : ℚ) : PreviewState :=
  { currentImage := some image, textureDirty := false, emitPending := false,
    filterType := t, filterStrength := q,
    hasProgram := true, geometryInitialized := true,
    texture := some (image.width, image.height),
    framebuffer := some (image.width, image.height) }

/-- Embeds the mutable state of VirtualCameraStreamer.  The file
descriptor is an Int with -1 the closed sentinel. -/
structure StreamerState where
  fd : Int
  devicePath : String
  enabled : Bool
  deviceConfigured : Bool
  frameWidth : Int
  frameHeight : Int
deriving DecidableEq, Repr

/-- Embeds the VirtualCameraStreamer constructor: created closed, default
device path, disabled, unconfigured. -/
def initStreamerState : StreamerState :=
  { fd := -1, devicePath := "/dev/video42", enabled := false,
    deviceConfigured := false, frameWidth := 0, frameHeight := 0 }

/-- Counts the syscalls issued by one openDevice call. -/
structure OpLog where
  opens : Nat
  configures : Nat
deriving DecidableEq, Repr

/-- Embeds VirtualCameraStreamer::closeDevice: the handle is released, the
fd reset to the closed sentinel, the configured flag cleared and the
last-configured dimensions zeroed. -/
def closeDevice (s : StreamerState) : StreamerState :=
  { s with fd := -1, deviceConfigured := false, frameWidth := 0, frameHeight := 0 }

/-- Embeds VirtualCameraStreamer::configureFormat: fails on a closed fd,
otherwise succeeds exactly when the modelled VIDIOC_S_FMT ioctl does. -/
def configureFormat (ioctlOk : Bool) (s : StreamerState) : Bool :=
  if s.fd = -1 then false else ioctlOk

/-- The format-negotiation tail of openDevice: the configureFormat call,
whose failure closes the session and force-disables output.  `opens`
carries the number of opens already performed in this openDevice call. -/
def openDeviceFormat (ioctlOk : Bool) (w h : Int) (s : StreamerState) (opens : Nat) :
    Bool × StreamerState × OpLog :=
  if configureFormat ioctlOk s then
    (true, { s with deviceConfigured := true, frameWidth := w, frameHeight := h },
      { opens := opens, configures := 1 })
  else
    (false, { closeDevice s with enabled := false }, { opens := opens, configures := 1 })

/-- The reconfiguration block of openDevice: when unconfigured or the
requested dimensions differ from the recorded ones, a dimension difference
first closes and reopens the device (consuming the next modelled open
result), then the format is negotiated. -/
def openDeviceConfigure (env : Nat → Int) (ioctlOk : Bool) (w h : Int)
    (s : StreamerState) (opens : Nat) : Bool × StreamerState × OpLog :=
  if ¬ s.deviceConfigured ∨ w ≠ s.frameWidth ∨ h ≠ s.frameHeight then
    if w ≠ s.frameWidth ∨ h ≠ s.frameHeight then
      let s1 := closeDevice s
      let fd1 := env opens
      if fd1 = -1 then
        (false, { s1 with fd := -1, enabled := false },
          { opens := opens + 1, configures := 0 })
      else
        openDeviceFormat ioctlOk w h { s1 with fd := fd1 } (opens + 1)
    else
      openDeviceFormat ioctlOk w h s opens
  else
    (true, s, { opens := opens, configures := 0 })

/-- Embeds VirtualCameraStreamer::openDevice.  `env` gives the fd returned
by each successive ::open call of this invocation (-1 for failure) and
`ioctlOk` the outcome of the VIDIOC_S_FMT ioctl.  Returns the success
flag, the new state and the syscall counts of this call. -/
def openDevice (env : Nat → Int) (ioctlOk : Bool) (w h : Int) (s : StreamerState) :
    Bool × StreamerState × OpLog :=
  if s.fd = -1 then
    let fd0 := env 0
    if fd0 = -1 then
      (false, { s with fd := -1, enabled := false }, { opens := 1, configures := 0 })
    else
      openDeviceConfigure env ioctlOk w h { s with fd := fd0, deviceConfigured := false } 1
  else
    openDeviceConfigure env ioctlOk w h s 0

/-- Embeds VirtualCameraStreamer::writeFrame with the byte count reported
by the blocking ::write passed in: a closed fd or a failed conversion
fails; otherwise the write succeeds exactly when the reported count equals
the packed frame size. -/
def writeFrame (image : RgbImage) (written : Int) (s : StreamerState) : Bool :=
  if s.fd = -1 then false
  else
    match convertRgbToYuyvWrites image with
    | Option.none => false
    | some (sz, _) => written = (sz : Int)

/-- Embeds the write tail of onProcessedFrameReady:
`if (!writeFrame(image)) closeDevice();` — a failed or short write closes
the session (the frame is dropped, not retried), a successful write leaves
the session configured. -/
def handleWriteResult (image : RgbImage) (written : Int) (s : StreamerState) : StreamerState :=
  if writeFrame image written s then s else closeDevice s

/-- A GLSL vec3 over exact rationals. -/
structure Vec3 where
  x : ℚ
  y : ℚ
  z : ℚ
deriving DecidableEq, Repr

/-- A GLSL rgba color over exact rationals. -/
structure Vec4 where
  r : ℚ
  g : ℚ
  b : ℚ
  a : ℚ
deriving DecidableEq, Repr

/-- GLSL clamp(x, 0.0, 1.0) on a scalar: min(max(x, 0), 1). -/
def clamp01 (v : ℚ) : ℚ := min (max v 0) 1

/-- GLSL clamp(v, 0.0, 1.0) componentwise. -/
def clamp3 (c : Vec3) : Vec3 := ⟨clamp01 c.x, clamp01 c.y, clamp01 c.z⟩

/-- GLSL mix(x, y, a) = x*(1-a) + y*a componentwise. -/
def mix3 (c t : Vec3) (q : ℚ) : Vec3 :=
  ⟨c.x * (1 - q) + t.x * q, c.y * (1 - q) + t.y * q, c.z * (1 - q) + t.z * q⟩

/-- Embeds toGrayscale of the fragment shader: luma dot product splatted. -/
def toGrayscale (c : Vec3) : Vec3 :=
  let gray := c.x * (0.299 : ℚ) + c.y * (0.587 : ℚ) + c.z * (0.114 : ℚ)
  ⟨gray, gray, gray⟩

/-- Embeds toSepia of the fragment shader: fixed 3x3 matrix transform. -/
def toSepia (c : Vec3) : Vec3 :=
  ⟨c.x * (0.393 : ℚ) + c.y * (0.769 : ℚ) + c.z * (0.189 : ℚ),
   c.x * (0.349 : ℚ) + c.y * (0.686 : ℚ) + c.z * (0.168 : ℚ),
   c.x * (0.272 : ℚ) + c.y * (0.534 : ℚ) + c.z * (0.131 : ℚ)⟩

/-- Embeds toWarm of the fragment shader. -/
def toWarm (c : Vec3) : Vec3 :=
  ⟨c.x + (0.05 : ℚ), c.y + (0.03 : ℚ), c.z - (0.02 : ℚ)⟩

/-- Embeds toCool of the fragment shader. -/
def toCool (c : Vec3) : Vec3 :=
  ⟨c.x - (0.02 : ℚ), c.y + (0.03 : ℚ), c.z + (0.05 : ℚ)⟩

/-- Embeds the filter dispatch of the fragment shader main: target starts
as the source color and is replaced according to u_filter. -/
def filterTarget (filter : Int) (color : Vec3) : Vec3 :=
  if filter = 1 then toGrayscale color
  else if filter = 2 then toSepia color
  else if filter = 3 then ⟨1 - color.x, 1 - color.y, 1 - color.z⟩
  else if filter = 4 then toWarm color
  else if filter = 5 then toCool color
  else color

/-- Embeds the fragment shader main on an already-sampled source color:
the color is blended toward the clamped target by the clamped strength and
the source alpha is passed through unmodified. -/
def fragmentMain (filter : Int) (strength : ℚ) (src : Vec4) : Vec4 :=
  let color := Vec3.mk src.r src.g src.b
  let out := mix3 color (clamp3 (filterTarget filter color)) (clamp01 strength)
  ⟨out.x, out.y, out.z, src.a⟩

/-- Embeds the aspect-fit computation of renderToCurrentTarget: the
per-axis scale divisor from the frame and target aspect ratios. -/
def aspectScale (frameW frameH targetW targetH : ℚ) : ℚ × ℚ :=
  let frameAspect := frameW / frameH
  let targetAspect := targetW / targetH
  if frameAspect > targetAspect then (1, frameAspect / targetAspect)
  else (targetAspect / frameAspect, 1)

/-- Embeds the vertex stage of kVertexShaderSource: a_position is divided
componentwise by u_scale. -/
def vertexTransform (scale : ℚ × ℚ) (pos : ℚ × ℚ) : ℚ × ℚ :=
  (pos.1 / scale.1, pos.2 / scale.2)

/-- Helper: the stores of one scanline are exactly the packRow byte values
at consecutive destination indices starting at the row cursor. -/
theorem packRowWrites_eq_enumFrom (base : Nat) :
    ∀ (x : Nat) (ps : List Rgb),
      packRowWrites base x ps = List.enumFrom (base + x * 2) (packRow ps)
  | _, [] => by simp [packRowWrites, packRow]
  | x, [p0] => by
    simp [packRowWrites, packRow, List.enumFrom]
  | x, p0 :: p1 :: rest => by
    have ih := packRowWrites_eq_enumFrom base (x + 2) rest
    have harith : base + (x + 2) * 2 = base + x * 2 + 1 + 1 + 1 + 1 := by ring
    simp only [packRowWrites, packRow, List.enumFrom, ih, harith]

/-- C3: for every byte triple the conversion computes the BT.601 integer
formulas Y = clampByte(((66R+129G+25B+128) >> 8) + 16),
U = clampByte(((-38R-74G+112B+128) >> 8) + 128),
V = clampByte(((112R-94G-18B+128) >> 8) + 128) exactly; in particular the
4 by 2 solid-red frame converts to Y=82, U=90, V=240 per pixel, packed
into 4 macropixels of 4 bytes each, 16 bytes total, all in bounds. -/
theorem rgbToYuv_matches_bt601_and_red_example :
    (∀ r g b : Nat, r ≤ 255 → g ≤ 255 → b ≤ 255 →
      rgbToYuv r g b =
        { y := specLumaY r g b, u := specChromaU r g b, v := specChromaV r g b }) ∧
    rgbToYuv 255 0 0 = { y := 82, u := 90, v := 240 } ∧
    convertRgbToYuyvWrites redImage4x2 =
      some (16, List.enumFrom 0
        [82, 90, 82, 240, 82, 90, 82, 240, 82, 90, 82, 240, 82, 90, 82, 240]) := by
  refine ⟨fun r g b _ _ _ => rfl, by decide, by decide⟩

/-- Witness for C3 at the byte triple (255, 0, 0). -/
theorem rgbToYuv_matches_bt601_witness :
    rgbToYuv 255 0 0 =
      { y := specLumaY 255 0 0, u := specChromaU 255 0 0, v := specChromaV 255 0 0 } :=
  rgbToYuv_matches_bt601_and_red_example.1 255 0 0 (by decide) (by decide) (by decide)

/-- C4: for every horizontal pixel pair the packed bytes are Y0, U, Y1, V
with the shared chroma the integer-division average of the two pixels'
independently computed and rounded chroma values; and this two-step
rounding genuinely differs from averaging the raw sums before rounding
(witnessed by the pixel pair (0,0,1), (0,0,2)). -/
theorem packRow_pair_two_step_chroma :
    (∀ (p0 p1 : Rgb) (rest : List Rgb),
      packRow (p0 :: p1 :: rest) =
        (rgbToYuv p0.r p0.g p0.b).y ::
        clampToByte ((((rgbToYuv p0.r p0.g p0.b).u : Int) + ((rgbToYuv p1.r p1.g p1.b).u : Int)) / 2) ::
        (rgbToYuv p1.r p1.g p1.b).y ::
        clampToByte ((((rgbToYuv p0.r p0.g p0.b).v : Int) + ((rgbToYuv p1.r p1.g p1.b).v : Int)) / 2) ::
        packRow rest) ∧
    (∃ p0 p1 : Rgb,
      pairChroma (rgbToYuv p0.r p0.g p0.b).u (rgbToYuv p1.r p1.g p1.b).u ≠ singleStepU p0 p1) := by
  refine ⟨fun p0 p1 rest => rfl, ⟨{ r := 0, g := 0, b := 1 }, { r := 0, g := 0, b := 2 }, by decide⟩⟩

/-- C5: the converter fails, producing no buffer, exactly when a dimension
is non-positive; on success the output buffer is sized to exactly
width * height * 2 bytes by the resize. -/
theorem convertRgbToYuyv_failure_iff_and_size (image : RgbImage) :
    (convertRgbToYuyvWrites image = none ↔ image.width ≤ 0 ∨ image.height ≤ 0) ∧
    (∀ sz trace, convertRgbToYuyvWrites image = some (sz, trace) →
      (sz : Int) = image.width * image.height * 2) := by
  by_cases h : image.width ≤ 0 ∨ image.height ≤ 0
  · constructor
    · simp [convertRgbToYuyvWrites, h]
    · intro sz trace hsome
      rw [convertRgbToYuyvWrites, if_pos h] at hsome
      exact absurd hsome (by simp)
  · have hw : 0 < image.width := by
      rcases not_or.mp h with ⟨h1, _⟩
      exact lt_of_not_le h1
    have hh : 0 < image.height := by
      rcases not_or.mp h with ⟨_, h2⟩
      exact lt_of_not_le h2
    constructor
    · simp [convertRgbToYuyvWrites, h]
    · intro sz trace hsome
      rw [convertRgbToYuyvWrites, if_neg h] at hsome
      have hsz : sz = (image.width * image.height * 2).toNat := by
        have := congrArg (fun o => o.map Prod.fst) hsome
        simp at this
        exact this.symm
      rw [hsz, Int.toNat_of_nonneg (by positivity)]

/-- Witness for C5 at the 1 by 1 red image. -/
theorem convertRgbToYuyv_failure_iff_and_size_witness :
    ((2 : Nat) : Int) = redImage1x1.width * redImage1x1.height * 2 :=
  (convertRgbToYuyv_failure_iff_and_size redImage1x1).2 2
    [(0, 82), (1, 90), (2, 82), (3, 240)] (by decide)

/-- C6 (code bug): for an odd-width image the trailing column is NOT
cleanly encoded inside the output buffer.  At the 1 by 1 red image the
converter succeeds and sizes the buffer to 2 bytes, but the trailing-pixel
block stores a full 4-byte macropixel whose last two stores land at
indices 2 and 3 — at and past the end of the width*height*2 buffer (an
out-of-bounds heap write in the C++). -/
theorem convertRgbToYuyv_odd_width_writes_out_of_bounds :
    convertRgbToYuyvWrites redImage1x1 = some (2, [(0, 82), (1, 90), (2, 82), (3, 240)]) ∧
    (∃ s ∈ [(0, 82), (1, 90), (2, 82), (3, 240)], 2 ≤ (s : Nat × Nat).1) := by
  refine ⟨by decide, ⟨(2, 82), by decide, by decide⟩⟩

/-- C10 (code bug): the duplicated second luma byte of the trailing
macropixel is written outside the buffer.  At the 3 by 1 frame whose lone
trailing pixel is blue with luma 41, the stores at indices 4 and 6 both
carry that luma — the duplication the claim describes — but the buffer is
6 bytes, so the duplicate at index 6 (and the trailing V at index 7) are
out-of-bounds stores; the in-buffer bytes hold only Y, U of the lone
pixel. -/
theorem convertRgbToYuyv_duplicate_luma_out_of_bounds :
    convertRgbToYuyvWrites rgbImage3x1 =
      some (6, [(0, 82), (1, 72), (2, 144), (3, 137), (4, 41), (5, 240), (6, 41), (7, 110)]) ∧
    rgbToYuv 0 0 255 = { y := 41, u := 240, v := 110 } ∧
    (∃ s ∈ [(0, 82), (1, 72), (2, 144), (3, 137), (4, 41), (5, 240), (6, 41), (7, 110)],
      (s : Nat × Nat) = (6, (rgbToYuv 0 0 255).y) ∧ 6 ≤ s.1) := by
  refine ⟨by decide, by decide, ⟨(6, 41), by decide, by decide, by decide⟩⟩

/-- Helper: dividing a coordinate of the unit quad by a scale factor of at
least one keeps it inside the unit interval. -/
theorem abs_div_le_one_of_one_le {p s : ℚ} (hs : 1 ≤ s) (hp : |p| ≤ 1) : |p / s| ≤ 1 := by
  have hs0 : 0 < s := lt_of_lt_of_le one_pos hs
  rw [abs_div, abs_of_pos hs0, div_le_one hs0]
  exact hp.trans hs

/-- C7: for positive frame and target sizes the render pass computes the
aspect-fit scale (1, frameAspect/targetAspect) when frameAspect exceeds
targetAspect and (targetAspect/frameAspect, 1) otherwise; equal aspects
give (1, 1), both components are at least 1, and dividing any unit-quad
position by the scale stays inside the unit quad, so no part of the frame
is mapped outside the target. -/
theorem aspectScale_aspect_fit (fw fh tw th : ℚ)
    (hfw : 0 < fw) (hfh : 0 < fh) (htw : 0 < tw) (hth : 0 < th) :
    (fw / fh = tw / th → aspectScale fw fh tw th = (1, 1)) ∧
    1 ≤ (aspectScale fw fh tw th).1 ∧ 1 ≤ (aspectScale fw fh tw th).2 ∧
    (∀ p : ℚ × ℚ, |p.1| ≤ 1 → |p.2| ≤ 1 →
      |(vertexTransform (aspectScale fw fh tw th) p).1| ≤ 1 ∧
      |(vertexTransform (aspectScale fw fh tw th) p).2| ≤ 1) := by
  have hfa : 0 < fw / fh := div_pos hfw hfh
  have hta : 0 < tw / th := div_pos htw hth
  by_cases hgt : fw / fh > tw / th
  · have hscale : aspectScale fw fh tw th = (1, (fw / fh) / (tw / th)) := by
      simp [aspectScale, hgt]
    have hy : 1 ≤ (fw / fh) / (tw / th) := (one_le_div hta).mpr hgt.le
    refine ⟨fun heq => absurd hgt (by rw [heq]; exact lt_irrefl _), ?_, ?_, ?_⟩
    · rw [hscale]
    · rw [hscale]; exact hy
    · intro p hp1 hp2
      rw [hscale]
      exact ⟨abs_div_le_one_of_one_le le_rfl hp1, abs_div_le_one_of_one_le hy hp2⟩
  · have hle : fw / fh ≤ tw / th := not_lt.mp hgt
    have hscale : aspectScale fw fh tw th = ((tw / th) / (fw / fh), 1) := by
      simp [aspectScale, hgt]
    have hx : 1 ≤ (tw / th) / (fw / fh) := (one_le_div hfa).mpr hle
    refine ⟨fun heq => ?_, ?_, ?_, ?_⟩
    · rw [hscale, heq, div_self hta.ne']
    · rw [hscale]; exact hx
    · rw [hscale]
    · intro p hp1 hp2
      rw [hscale]
      exact ⟨abs_div_le_one_of_one_le hx hp1, abs_div_le_one_of_one_le le_rfl hp2⟩

/-- Witness for C7 at a 16:9 frame in a 4:3 target, with the quad corner (1, -1). -/
theorem aspectScale_aspect_fit_witness :
    1 ≤ (aspectScale 16 9 4 3).1 ∧ 1 ≤ (aspectScale 16 9 4 3).2 ∧
    |(vertexTransform (aspectScale 16 9 4 3) (1, -1)).1| ≤ 1 ∧
    |(vertexTransform (aspectScale 16 9 4 3) (1, -1)).2| ≤ 1 := by
  have h := aspectScale_aspect_fit 16 9 4 3 (by norm_num) (by norm_num) (by norm_num) (by norm_num)
  have hp := h.2.2.2 (1, -1) (by norm_num) (by norm_num)
  exact ⟨h.2.1, h.2.2.1, hp.1, hp.2⟩

/-- C8: for every filter kind and source color the fragment output is the
linear blend mix(color, clamp(target, 0, 1), clamp(strength, 0, 1)) with
the source alpha passed through; at strength 0 the output equals the
unfiltered source for every filter kind. -/
theorem fragmentMain_blend_and_strength_zero_identity (filter : Int) (strength : ℚ) (src : Vec4) :
    fragmentMain filter strength src =
      { r := (mix3 (Vec3.mk src.r src.g src.b)
                (clamp3 (filterTarget filter (Vec3.mk src.r src.g src.b))) (clamp01 strength)).x,
        g := (mix3 (Vec3.mk src.r src.g src.b)
                (clamp3 (filterTarget filter (Vec3.mk src.r src.g src.b))) (clamp01 strength)).y,
        b := (mix3 (Vec3.mk src.r src.g src.b)
                (clamp3 (filterTarget filter (Vec3.mk src.r src.g src.b))) (clamp01 strength)).z,
        a := src.a } ∧
    (strength = 0 → fragmentMain filter strength src = src) := by
  constructor
  · rfl
  · intro h0
    subst h0
    have hc : clamp01 0 = 0 := by norm_num [clamp01]
    cases src with
    | mk r g b a =>
      simp [fragmentMain, mix3, hc]

/-- Witness for C8: sepia at strength 0 leaves a concrete color unchanged. -/
theorem fragmentMain_strength_zero_identity_witness :
    fragmentMain 2 0 { r := 1/2, g := 1/3, b := 1/4, a := 1 } =
      { r := 1/2, g := 1/3, b := 1/4, a := 1 } :=
  (fragmentMain_blend_and_strength_zero_identity 2 0 { r := 1/2, g := 1/3, b := 1/4, a := 1 }).2 rfl

/-- Helper: ensureProgram does not touch the stored filter strength. -/
theorem ensureProgram_strength (s : PreviewState) :
    (ensureProgram s).filterStrength = s.filterStrength := by
  unfold ensureProgram
  split <;> rfl

/-- Helper: ensureGeometry does not touch the stored filter strength. -/
theorem ensureGeometry_strength (s : PreviewState) :
    (ensureGeometry s).filterStrength = s.filterStrength := by
  unfold ensureGeometry
  split <;> rfl

/-- Helper: uploadTextureIfNeeded does not touch the stored filter strength. -/
theorem uploadTextureIfNeeded_strength (s : PreviewState) :
    (uploadTextureIfNeeded s).filterStrength = s.filterStrength := by
  cases hc : s.currentImage with
  | none => simp [uploadTextureIfNeeded, hc]
  | some image =>
    simp only [uploadTextureIfNeeded, hc]
    split <;> rfl

/-- Helper: ensureFramebuffer does not touch the stored filter strength. -/
theorem ensureFramebuffer_strength (size : Int × Int) (s : PreviewState) :
    (ensureFramebuffer size s).filterStrength = s.filterStrength := by
  unfold ensureFramebuffer
  split
  · rfl
  · split <;> rfl

/-- Helper: a paint pass does not touch the stored filter strength. -/
theorem paintGL_strength (s : PreviewState) :
    (paintGL s).1.filterStrength = s.filterStrength := by
  cases hc : s.currentImage with
  | none => simp [paintGL, hc]
  | some image =>
    simp only [paintGL, hc]
    split
    · split
      · simp [ensureFramebuffer_strength, uploadTextureIfNeeded_strength,
          ensureGeometry_strength, ensureProgram_strength]
      · simp [ensureFramebuffer_strength, uploadTextureIfNeeded_strength,
          ensureGeometry_strength, ensureProgram_strength]
    · simp [uploadTextureIfNeeded_strength, ensureGeometry_strength, ensureProgram_strength]

/-- C9: the stored filter strength starts at 1, setFilterStrength clamps
its argument to [0,1] at assignment time (so the invariant 0 <= strength
<= 1 is preserved by it), and no other modelled operation writes the
strength at all. -/
theorem filterStrength_clamped_invariant :
    (0 ≤ initPreviewState.filterStrength ∧ initPreviewState.filterStrength ≤ 1) ∧
    (∀ (q : ℚ) (s : PreviewState), 0 ≤ s.filterStrength → s.filterStrength ≤ 1 →
      0 ≤ (setFilterStrength q s).filterStrength ∧ (setFilterStrength q s).filterStrength ≤ 1) ∧
    (∀ (t : FilterType) (s : PreviewState), (setFilter t s).filterStrength = s.filterStrength) ∧
    (∀ (image : QImg) (s : PreviewState),
      (updateVideoFrame image s).filterStrength = s.filterStrength) ∧
    (∀ s : PreviewState, (paintGL s).1.filterStrength = s.filterStrength) := by
  refine ⟨⟨by norm_num [initPreviewState], by norm_num [initPreviewState]⟩, ?_, ?_, ?_, paintGL_strength⟩
  · intro q s h0 h1
    unfold setFilterStrength
    by_cases hq : qFuzzyCompare (max 0 (min 1 q)) s.filterStrength = true
    · simp only [hq, if_true]
      exact ⟨h0, h1⟩
    · simp only [hq, if_false]
      exact ⟨le_max_left 0 _, max_le (by norm_num) (min_le_left 1 q)⟩
  · intro t s
    unfold setFilter
    split <;> rfl
  · intro image s
    unfold updateVideoFrame
    split <;> rfl

/-- Witness for C9: clamping an out-of-range strength 7 from the initial state. -/
theorem filterStrength_clamped_invariant_witness :
    0 ≤ (setFilterStrength 7 initPreviewState).filterStrength ∧
      (setFilterStrength 7 initPreviewState).filterStrength ≤ 1 :=
  filterStrength_clamped_invariant.2.1 7 initPreviewState (by norm_num [initPreviewState])
    (by norm_num [initPreviewState])

/-- C2 (counterexample): after a short write from a configured 4 by 2
session, the next openDevice performs TWO open syscalls, not at most one:
closeDevice zeroed the recorded dimensions, so after the initial reopen
the dimension check (4 differs from 0) triggers a second close-and-reopen
before the single configure. -/
theorem shortWrite_recovery_two_opens_counterexample :
    (openDevice (fun _ => 7) true 4 2
        (handleWriteResult redImage4x2 8
          { fd := 5, devicePath := "/dev/video42", enabled := true,
            deviceConfigured := true, frameWidth := 4, frameHeight := 2 })).2.2 =
      { opens := 2, configures := 1 } ∧
    ¬ ((openDevice (fun _ => 7) true 4 2
        (handleWriteResult redImage4x2 8
          { fd := 5, devicePath := "/dev/video42", enabled := true,
            deviceConfigured := true, frameWidth := 4, frameHeight := 2 })).2.2.opens ≤ 1) := by
  exact ⟨by decide, by decide⟩

/-- C2 (amended): a short write (reported byte count differs from the
packed frame size) closes the session — fd reset to the closed sentinel
-1, configured flag cleared, dimensions zeroed, frame dropped — and the
next frame's openDevice performs a clean recovery with no reuse of the
dead handle: it re-configures the format exactly once, but opens the
device twice (the initial reopen of the closed session, then, because the
recorded dimensions were reset to 0 and differ from the frame's, a close
and reopen before configuring); the session ends configured on the fresh
fd with the frame's dimensions recorded. -/
theorem shortWrite_closes_then_recovery_reopens (s : StreamerState) (image : RgbImage)
    (sz : Nat) (trace : List (Nat × Nat)) (written : Int) (env : Nat → Int) (w h : Int)
    (hfd : s.fd ≠ -1)
    (hconv : convertRgbToYuyvWrites image = some (sz, trace))
    (hshort : written ≠ (sz : Int))
    (h0 : env 0 ≠ -1) (h1 : env 1 ≠ -1) (hw : w ≠ 0) :
    handleWriteResult image written s = closeDevice s ∧
    (closeDevice s).fd = -1 ∧ (closeDevice s).deviceConfigured = false ∧
    (openDevice env true w h (closeDevice s)).1 = true ∧
    (openDevice env true w h (closeDevice s)).2.1.fd = env 1 ∧
    (openDevice env true w h (closeDevice s)).2.1.deviceConfigured = true ∧
    (openDevice env true w h (closeDevice s)).2.1.frameWidth = w ∧
    (openDevice env true w h (closeDevice s)).2.1.frameHeight = h ∧
    (openDevice env true w h (closeDevice s)).2.2 = { opens := 2, configures := 1 } := by
  have hwrite : writeFrame image written s = false := by
    simp [writeFrame, hfd, hconv, hshort]
  have hclose : handleWriteResult image written s = closeDevice s := by
    simp [handleWriteResult, hwrite]
  have hopen : openDevice env true w h (closeDevice s) =
      openDeviceConfigure env true w h
        { closeDevice s with fd := env 0, deviceConfigured := false } 1 := by
    simp [openDevice, closeDevice, h0]
  have hconf : openDeviceConfigure env true w h
      { closeDevice s with fd := env 0, deviceConfigured := false } 1 =
      openDeviceFormat true w h
        { closeDevice { closeDevice s with fd := env 0, deviceConfigured := false }
            with fd := env 1 } 2 := by
    simp [openDeviceConfigure, closeDevice, hw, h1]
  have hfmt : openDeviceFormat true w h
      { closeDevice { closeDevice s with fd := env 0, deviceConfigured := false }
          with fd := env 1 } 2 =
      (true, { closeDevice { closeDevice s with fd := env 0, deviceConfigured := false }
          with fd := env 1, deviceConfigured := true, frameWidth := w, frameHeight := h },
        { opens := 2, configures := 1 }) := by
    simp [openDeviceFormat, configureFormat, closeDevice, h1]
  rw [hopen, hconf, hfmt]
  exact ⟨hclose, rfl, rfl, rfl, rfl, rfl, rfl, rfl, rfl⟩

/-- Witness for the amended C2 at the concrete configured 4 by 2 session. -/
theorem shortWrite_closes_then_recovery_reopens_witness :
    handleWriteResult redImage4x2 8
        { fd := 5, devicePath := "/dev/video42", enabled := true,
          deviceConfigured := true, frameWidth := 4, frameHeight := 2 } =
      closeDevice
        { fd := 5, devicePath := "/dev/video42", enabled := true,
          deviceConfigured := true, frameWidth := 4, frameHeight := 2 } ∧
    (closeDevice
        { fd := 5, devicePath := "/dev/video42", enabled := true,
          deviceConfigured := true, frameWidth := 4, frameHeight := 2 }).fd = -1 := by
  have h := shortWrite_closes_then_recovery_reopens
    { fd := 5, devicePath := "/dev/video42", enabled := true,
      deviceConfigured := true, frameWidth := 4, frameHeight := 2 }
    redImage4x2 16
    (List.enumFrom 0 [82, 90, 82, 240, 82, 90, 82, 240, 82, 90, 82, 240, 82, 90, 82, 240])
    8 (fun _ => 7) 4 2 (by decide) (by decide) (by decide) (by decide) (by decide) (by decide)
  exact ⟨h.1, h.2.1⟩

/-- Helper: ensureProgram always results in the program being present. -/
theorem ensureProgram_eq (s : PreviewState) :
    ensureProgram s = { s with hasProgram := true } := by
  unfold ensureProgram
  split
  · cases s
    simp_all
  · rfl

/-- Helper: ensureGeometry always results in the geometry being present. -/
theorem ensureGeometry_eq (s : PreviewState) :
    ensureGeometry s = { s with geometryInitialized := true } := by
  unfold ensureGeometry
  split
  · cases s
    simp_all
  · rfl

/-- Helper: a non-empty requested size always results in the framebuffer
existing at that size. -/
theorem ensureFramebuffer_eq (size : Int × Int) (s : PreviewState)
    (h : (size.1 ≤ 0 || size.2 ≤ 0) = false) :
    ensureFramebuffer size s = { s with framebuffer := some size } := by
  unfold ensureFramebuffer
  rw [h]
  simp only [Bool.false_eq_true, if_false]
  split
  · cases s
    simp_all
  · rfl

/-- Helper: a paint pass right after a valid frame arrival uploads the
texture, renders offscreen, emits exactly once and clears emitPending,
landing in the steady processed state. -/
theorem paintGL_after_frame (image : QImg) (s : PreviewState) (h : image.isNull = false) :
    paintGL (updateVideoFrame image s) =
      (steadyState image s.filterType s.filterStrength, 1) := by
  have hupd : updateVideoFrame image s =
      { s with currentImage := some image, textureDirty := true, emitPending := true } := by
    simp [updateVideoFrame, h]
  have hsize : ((image.width, image.height).1 ≤ 0 || (image.width, image.height).2 ≤ 0) = false := by
    simpa [QImg.isNull] using h
  rw [hupd]
  simp only [paintGL, ensureProgram_eq, ensureGeometry_eq, uploadTextureIfNeeded]
  simp only [ensureFramebuffer_eq _ _ hsize]
  simp [steadyState]

/-- Helper: a paint pass from the steady processed state re-renders the
visible surface but changes nothing and emits nothing. -/
theorem paintGL_steady (image : QImg) (t : FilterType) (q : ℚ) (h : image.isNull = false) :
    paintGL (steadyState image t q) = (steadyState image t q, 0) := by
  have hsize : ((image.width, image.height).1 ≤ 0 || (image.width, image.height).2 ≤ 0) = false := by
    simpa [QImg.isNull] using h
  simp only [paintGL, steadyState, ensureProgram_eq, ensureGeometry_eq, uploadTextureIfNeeded]
  simp only [ensureFramebuffer_eq _ _ hsize]
  simp

/-- Helper: emission counts over a concatenated event list add up. -/
theorem runPreview_append (s : PreviewState) (l1 l2 : List PreviewEvent) :
    runPreview s (l1 ++ l2) =
      ((runPreview (runPreview s l1).1 l2).1,
        (runPreview s l1).2 + (runPreview (runPreview s l1).1 l2).2) := by
  induction l1 generalizing s with
  | nil => simp [runPreview]
  | cons e es ih =>
    simp only [List.cons_append, runPreview, List.append_eq]
    rw [ih]
    simp [Nat.add_assoc]

/-- Helper: repeated repaints from the steady processed state never
re-emit. -/
theorem run_paints_steady (image : QImg) (t : FilterType) (q : ℚ)
    (h : image.isNull = false) :
    ∀ k : Nat, runPreview (steadyState image t q) (List.replicate k PreviewEvent.paint) =
      (steadyState image t q, 0) := by
  intro k
  induction k with
  | zero => simp [runPreview]
  | succ k ih =>
    rw [List.replicate_succ]
    simp [runPreview, stepPreview, paintGL_steady image t q h, ih]

/-- Helper: one frame arrival followed by one processing repaint and any
number of extra repaints emits exactly once, ending steady. -/
theorem run_segment (s : PreviewState) (image : QImg) (k : Nat) (h : image.isNull = false) :
    runPreview s (PreviewEvent.frame image :: List.replicate (k + 1) PreviewEvent.paint) =
      (steadyState image s.filterType s.filterStrength, 1) := by
  rw [List.replicate_succ]
  simp [runPreview, stepPreview, paintGL_after_frame image s h,
    run_paints_steady image s.filterType s.filterStrength h k]

/-- Helper: the cadence property from an arbitrary start state. -/
theorem cadence_general (segs : List (QImg × Nat)) :
    ∀ s : PreviewState, (∀ seg ∈ segs, (seg : QImg × Nat).1.isNull = false) →
      (runPreview s (cadenceTrace segs)).2 = segs.length := by
  induction segs with
  | nil =>
    intro s _
    simp [cadenceTrace, runPreview]
  | cons seg rest ih =>
    intro s h
    have hseg : seg.1.isNull = false := h seg (List.mem_cons_self seg rest)
    have hrest : ∀ x ∈ rest, (x : QImg × Nat).1.isNull = false :=
      fun x hx => h x (List.mem_cons_of_mem seg hx)
    have htrace : cadenceTrace (seg :: rest) =
        (PreviewEvent.frame seg.1 :: List.replicate (seg.2 + 1) PreviewEvent.paint) ++
          cadenceTrace rest := by
      simp [cadenceTrace]
    rw [htrace, runPreview_append, run_segment s seg.1 seg.2 hseg]
    have htail := ih (steadyState seg.1 s.filterType s.filterStrength) hrest
    simp [htail]
    omega

/-- C1: starting from the freshly constructed widget, a sequence of N
valid input frames, each followed by one processing repaint and any number
of extra visible-surface repaints before the next frame arrives, produces
exactly N processedFrameReady emissions: emitPending is set on frame
arrival, cleared by the single successful offscreen render and readback,
and repaints without a new frame never re-emit. -/
theorem emission_cadence_one_per_frame (segs : List (QImg × Nat))
    (h : ∀ seg ∈ segs, (seg : QImg × Nat).1.isNull = false) :
    (runPreview initPreviewState (cadenceTrace segs)).2 = segs.length :=
  cadence_general segs initPreviewState h

/-- Witness for C1: two frames with two and zero extra repaints give
exactly two emissions. -/
theorem emission_cadence_one_per_frame_witness :
    (runPreview initPreviewState
      (cadenceTrace [({ width := 4, height := 2 }, 2), ({ width := 6, height := 4 }, 0)])).2 = 2 :=
  emission_cadence_one_per_frame
    [({ width := 4, height := 2 }, 2), ({ width := 6, height := 4 }, 0)] (by decide)
